import Mathlib

/-!
Verification of the FactCheck-AI narrative-consistency pipeline.

The Python repository is shallowly embedded here:

* `parse_decision` (src/pipeline.py) — parses the terminal oracle response
  into a prediction, a confidence score and a rationale.  The module
  `pipeline.py` never imports `re` (nor `os`), although line 39 carries the
  comment "import re already at top"; evaluating `re.search` at line 40
  therefore raises `NameError` on every call, which the embedding records
  as an `Except.error`.
* `retrieve_evidence` (src/reasoning.py) — the line-oriented evidence
  parser; the external `search_index` call is passed in as an oracle that
  may fail.
* `chunk_text` (src/retrieval.py) — the overlapping word chunker; the
  Python `while` loop is embedded with explicit fuel, `none` standing for
  divergence.
* the per-story loop of `run_pipeline` (src/pipeline.py) — stories are
  visited in order and a failure of the `try`-block body would be caught
  at the per-story boundary, but each iteration first evaluates
  `os.path.join`/`os.path.exists` outside the `try`, and `pipeline.py`
  never imports `os` either, so the loop raises `NameError` on its first
  iteration and aborts the whole batch.
* the Consistency Scoring & Dependency-Propagation Engine.  The repository
  delegates the arithmetic of this engine to the language-model oracle via
  prompt text (`calculate_contradiction_score`, `cross_claim_validation`,
  `final_decision_with_score` in src/reasoning.py), so no executable source
  exists for it; those definitions are modelled from the specification and
  are marked as such.
-/

/-! ## Python string primitives

The embeddings below work on `List Char` with structural recursion, so
every definition evaluates on concrete inputs by `rfl`/`decide`. -/

/-- `charsPre p l` is true when the character list `p` is a prefix of `l`. -/
def charsPre : List Char → List Char → Bool
  | [], _ => true
  | _ :: _, [] => false
  | a :: as, b :: bs => a == b && charsPre as bs

/-- `charsInf p l` is true when the character list `p` occurs contiguously
inside `l`. -/
def charsInf (p : List Char) : List Char → Bool
  | [] => charsPre p []
  | b :: bs => charsPre p (b :: bs) || charsInf p bs

/-- Python `sub in s` (substring containment). -/
def pyContains (s sub : String) : Bool :=
  charsInf sub.toList s.toList

/-- Python `s.strip()` with no arguments: remove leading and trailing
whitespace. -/
def pyStrip (s : String) : String :=
  String.mk (((s.toList.dropWhile Char.isWhitespace).reverse.dropWhile
    Char.isWhitespace).reverse)

/-- Worker for `pySplitWS`: `cur` holds the characters of the word in
progress, reversed. -/
def wordsAux : List Char → List Char → List String
  | [], cur => if cur.isEmpty then [] else [String.mk cur.reverse]
  | c :: cs, cur =>
    if c.isWhitespace then
      if cur.isEmpty then wordsAux cs [] else String.mk cur.reverse :: wordsAux cs []
    else
      wordsAux cs (c :: cur)

/-- Python `s.split()` with no arguments: split on runs of whitespace,
discarding empty pieces. -/
def pySplitWS (s : String) : List String :=
  wordsAux s.toList []

/-- Worker for `pySplitLines`: `cur` holds the characters of the line in
progress, reversed. -/
def linesAux : List Char → List Char → List String
  | [], cur => [String.mk cur.reverse]
  | c :: cs, cur =>
    if c == '\n' then String.mk cur.reverse :: linesAux cs []
    else linesAux cs (c :: cur)

/-- Python `s.split("\n")`: split at every newline, keeping empty
pieces (`"".split("\n") == [""]`). -/
def pySplitLines (s : String) : List String :=
  linesAux s.toList []

/-- Python `" ".join(ws)`. -/
def joinSpace : List String → String
  | [] => ""
  | [w] => w
  | w :: ws => w ++ " " ++ joinSpace ws

/-- Python `line.split(":", 1)`: the part before the first colon and the
part after it.  On a line with no colon the whole line is the first
component (the callers below only use this under a colon-containment
guard, matching the source). -/
def splitOnceColon (line : String) : String × String :=
  (String.mk (line.toList.takeWhile (fun c => c != ':')),
   String.mk ((line.toList.dropWhile (fun c => c != ':')).drop 1))

/-- A Python exception value, as visible to an exception handler. -/
inductive PyErr where
  | nameError (name : String)
  | exc (msg : String)
  deriving DecidableEq, Repr

/-! ## `parse_decision` (src/pipeline.py, lines 26–57)

The body first computes the default prediction from the two recognised
`Prediction:` substrings (lines 33–35).  Line 40 then evaluates
`re.search(r'Confidence Score:...', decision_output)`; the module
namespace of `pipeline.py` has no binding for `re` (there is no
`import re` statement, the comment at line 39 notwithstanding), so the
name lookup raises `NameError: name 're' is not defined`, which no
handler inside the function catches. -/

def parse_decision (decision_output : String) : Except PyErr (Nat × ℚ × String) :=
  let _prediction : Nat :=
    if pyContains decision_output "Prediction: 0" || pyContains decision_output "Prediction:0"
    then 0 else 1
  Except.error (PyErr.nameError "re")

/-! ## `retrieve_evidence` (src/reasoning.py, lines 101–119)

The function iterates over the lines of the oracle's query text.  A line
is considered only when it contains a colon and strips to a non-empty
string; it is split at the first colon into a claim id and a query, both
stripped.  When the query is non-empty and longer than two characters the
external `search_index` is consulted; its result is stored in the
`evidence` dict under the claim id.  Any exception thrown while handling
one line is caught by the `except` clause and that line is skipped.  The
`search_index` collaborator is passed in as an oracle of type
`String → Nat → Except PyErr (List String)` (query and `k` in, the
retrieved passages' texts out, or a raised exception). -/

/-- Python `dict` assignment `d[k] = v`: replace the value in place when
the key is present, otherwise append the binding. -/
def dictInsert (m : List (String × List String)) (k : String) (v : List String) :
    List (String × List String) :=
  if m.any (fun p => p.1 == k) then
    m.map (fun p => if p.1 == k then (k, v) else p)
  else
    m ++ [(k, v)]

/-- One iteration of the `for line in query_text.split("\n")` loop of
`retrieve_evidence`, transforming the evidence accumulator. -/
def evidenceLine (oracle : String → Nat → Except PyErr (List String)) (top_k : Nat)
    (line : String) (acc : List (String × List String)) : List (String × List String) :=
  if pyContains line ":" && !(pyStrip line).toList.isEmpty then
    let cid := pyStrip (splitOnceColon line).1
    let query := pyStrip (splitOnceColon line).2
    if !query.toList.isEmpty && query.length > 2 then
      match oracle query top_k with
      | Except.ok results => dictInsert acc cid results
      | Except.error _ => acc
    else acc
  else acc

/-- The loop of `retrieve_evidence` over the remaining lines. -/
def evidenceLoop (oracle : String → Nat → Except PyErr (List String)) (top_k : Nat) :
    List String → List (String × List String) → List (String × List String)
  | [], acc => acc
  | line :: rest, acc => evidenceLoop oracle top_k rest (evidenceLine oracle top_k line acc)

/-- `retrieve_evidence`: Python exceptions raised by `search_index` are
modelled by the oracle returning `Except.error`; the surrounding
`try`/`except` of the source catches them per line, so the function as a
whole is embedded in `Except` to express what it may raise to its
caller. -/
def retrieve_evidence (query_text : String)
    (oracle : String → Nat → Except PyErr (List String)) (top_k : Nat) :
    Except PyErr (List (String × List String)) :=
  Except.ok (evidenceLoop oracle top_k (pySplitLines query_text) [])

/-! ## `chunk_text` (src/retrieval.py, lines 41–50)

`words = text.split()`, then a `while i < len(words)` loop emits
`" ".join(words[i:i + chunk_size])` and advances `i` by
`chunk_size - overlap`.  The loop is embedded with explicit fuel: `none`
means the fuel ran out, which on exhaustive fuel corresponds to the
Python loop not terminating (the advance `chunk_size - overlap` is not
positive).  In the terminating regime `chunk_size > overlap` the fuel
`words.length + 1` is shown below to suffice. -/

/-- The `while i < len(words)` loop of `chunk_text`. -/
def chunkLoop (words : List String) (chunk_size overlap : Nat) :
    Nat → Nat → Option (List String)
  | 0, _ => none
  | fuel + 1, i =>
    if i < words.length then
      match chunkLoop words chunk_size overlap fuel (i + (chunk_size - overlap)) with
      | some rest => some (joinSpace ((words.drop i).take chunk_size) :: rest)
      | none => none
    else
      some []

/-- `chunk_text`; the source's defaults are `chunk_size = 1000` and
`overlap = 200`, which the callers pass implicitly. -/
def chunk_text (text : String) (chunk_size overlap : Nat) : Option (List String) :=
  chunkLoop (pySplitWS text) chunk_size overlap ((pySplitWS text).length + 1) 0

/-! ## The per-story loop of `run_pipeline` (src/pipeline.py, lines 78–181)

The external collaborators used inside the `try` block — file loading,
index building and every `call_llm`-backed stage — are gathered in an
`Oracles` record whose fields return `Except PyErr`: an `Except.error`
is a Python exception raised by that call.  `processStory` is the body
of the `try` block: the first raised exception aborts the story (the
`Except` bind propagates it), exactly as in Python.

`runPipelineLoop` is the loop skeleton, and it is embedded in `Except`
because each iteration raises an exception OUTSIDE the per-story
`try`/`except`: before the `try` at line 87, lines 80–83 evaluate
`os.path.join(...)` (twice) and `os.path.exists(backstory_path)`, and
`pipeline.py` never imports `os` (just as it never imports `re`), so
the lookup of the global name `os` raises `NameError` on the very first
iteration.  That exception is not caught by the per-story handler at
lines 177–181 — it propagates out of the loop and aborts every
remaining story.  The loop skeleton past that point matches the source:
a story without a matching backstory would be skipped before the `try`
(lines 83–85, `has_backstory` standing for what `os.path.exists` would
return were `os` bound); a story whose `try` body raises would be
caught by the `except Exception` clause, contribute nothing to
`results`, and the loop would `continue`.  Rows are those of the debug
mode, `(story_id, prediction, confidence_score, rationale)`.
(`run_pipeline` itself also evaluates `os.listdir` at line 65, so in a
real run the same `NameError` already occurs before the loop.) -/

/-- Evaluation of the global name `os` in `pipeline.py`'s module
namespace: the module has no `import os` statement, so the name lookup
raises `NameError: name 'os' is not defined`. -/
def osLookup : Except PyErr Unit :=
  Except.error (PyErr.nameError "os")

/-- The external collaborators called inside the per-story `try` block,
over an abstract index type. -/
structure Oracles (Index : Type) where
  load_text : String → Except PyErr String
  build_vector_index : String → Except PyErr Index
  search_index : Index → String → Nat → Except PyErr (List String)
  extract_claims : String → Except PyErr String
  classify_importance : String → Except PyErr String
  map_claim_dependencies : String → Except PyErr String
  generate_queries : String → Except PyErr String
  temporal_analysis : String → List (String × List String) → Except PyErr String
  causal_evaluation : String → String → String → Except PyErr String
  memory_state_propagation : String → String → String → Except PyErr String
  cross_claim_validation : String → String → String → Except PyErr String
  verify_counterfactual_expectations :
    String → List (String × List String) → String → Except PyErr String
  calculate_contradiction_score :
    String → String → String → String → Except PyErr String
  final_decision_with_score :
    String → String → String → String → String → Except PyErr String

/-- The body of the `try` block for one story (lines 88–175): the twelve
stages in source order, ending in `parse_decision` and the debug-mode
result row. -/
def processStory {Index : Type} (o : Oracles Index) (story_id : String) :
    Except PyErr (String × Nat × ℚ × String) := do
  let novel_text ← o.load_text ("data/story_" ++ story_id ++ ".txt")
  let backstory_text ← o.load_text ("data/backstory_" ++ story_id ++ ".txt")
  let index ← o.build_vector_index novel_text
  let claims ← o.extract_claims backstory_text
  let importance ← o.classify_importance claims
  let dependencies ← o.map_claim_dependencies claims
  let queries ← o.generate_queries claims
  let evidence ← retrieve_evidence queries (o.search_index index) 5
  let temporal ← o.temporal_analysis claims evidence
  let weighted ← o.causal_evaluation claims importance temporal
  let memory_states ← o.memory_state_propagation claims temporal importance
  let dependency_analysis ← o.cross_claim_validation claims weighted dependencies
  let counterfactuals ← o.verify_counterfactual_expectations claims evidence importance
  let score_analysis ←
    o.calculate_contradiction_score weighted memory_states dependency_analysis counterfactuals
  let decision ←
    o.final_decision_with_score weighted memory_states score_analysis
      dependency_analysis counterfactuals
  let parsed ← parse_decision decision
  pure (story_id, parsed)

/-- The `for fname in story_files` loop (lines 78–181): per iteration,
the path construction and backstory-existence check of lines 80–83 run
before the `try` and evaluate the unbound global `os` (the three binds
model the `os` lookups at lines 80, 81 and 83), whose `NameError`
escapes the per-story boundary; only a `try`-body failure is caught and
skipped.  Abstracted over the body of the `try` block. -/
def runPipelineLoop {Row : Type} (has_backstory : String → Bool)
    (body : String → Except PyErr Row) : List String → Except PyErr (List Row)
  | [] => Except.ok []
  | story_id :: rest => do
    let _ ← osLookup
    let _ ← osLookup
    let _ ← osLookup
    if has_backstory story_id then
      match body story_id with
      | Except.ok row => do
        let rows ← runPipelineLoop has_backstory body rest
        pure (row :: rows)
      | Except.error _ => runPipelineLoop has_backstory body rest
    else
      runPipelineLoop has_backstory body rest

/-! ## Consistency Scoring Engine

The repository performs the signal aggregation, score normalisation and
threshold decision through the language-model oracle: the prompt strings
of `calculate_contradiction_score` and `final_decision_with_score`
(src/reasoning.py, lines 320–419) state the penalty table, the formula
`Final Score = 1.0 - (Total Penalty / Total Possible)` with output range
0.0–1.0, and the threshold `Score < 0.4 → 0, Score >= 0.4 → 1`, but no
executable source computes them.  The definitions below are therefore
modelled from the specification (§4.3 Signal Aggregator, §4.4 Score
Normalizer, §4.5 Decision Maker), whose penalty table, threshold and
zero-denominator default agree with those prompt strings. -/

/-- Importance tier of a claim. -/
inductive Importance where
  | major
  | minor
  deriving DecidableEq, Repr

/-- Causal verdict for a claim. -/
inductive CausalVerdict where
  | fatalContradiction
  | softContradiction
  | consistent
  deriving DecidableEq, Repr

/-- Memory-state transition classification for a claim. -/
inductive TransitionType where
  | gradual
  | sudden
  | impossible
  deriving DecidableEq, Repr

/-- Derived orphan classification of a claim. -/
inductive OrphanStatus where
  | valid
  | causallyOrphaned
  deriving DecidableEq, Repr

/-- Counterfactual verification result for a claim. -/
inductive CFResult where
  | satisfied
  | violated
  | unknown
  deriving DecidableEq, Repr

/-- Modelled from the spec: the per-claim contradiction signals consumed
by the Signal Aggregator (§4.3), one record per claim.  The memory and
counterfactual analyses only annotate MAJOR claims, hence the options. -/
structure ClaimSignals where
  importance : Importance
  causal : CausalVerdict
  transition : Option TransitionType
  orphan : OrphanStatus
  counterfactual : Option CFResult
  deriving DecidableEq, Repr

/-- Modelled from the spec: the causal row of the §4.3 penalty table
(missing from src/ — it exists only inside the
`calculate_contradiction_score` prompt).  MAJOR & FATAL costs 1.0,
MAJOR & SOFT costs 0.3, a MINOR claim with any contradiction costs 0.2,
consistent claims cost nothing. -/
def causalPenalty (s : ClaimSignals) : ℚ :=
  match s.importance, s.causal with
  | Importance.major, CausalVerdict.fatalContradiction => 1
  | Importance.major, CausalVerdict.softContradiction => 3 / 10
  | Importance.minor, CausalVerdict.fatalContradiction => 1 / 5
  | Importance.minor, CausalVerdict.softContradiction => 1 / 5
  | _, CausalVerdict.consistent => 0

/-- Modelled from the spec: the full per-claim penalty of §4.3 —
penalties are additive across the independent signal categories
(causal, memory, dependency, counterfactual) for the same claim. -/
def claimPenalty (s : ClaimSignals) : ℚ :=
  causalPenalty s
    + (if s.transition = some TransitionType.impossible then 1 / 2 else 0)
    + (if s.orphan = OrphanStatus.causallyOrphaned then 2 / 5 else 0)
    + (if s.counterfactual = some CFResult.violated then 1 / 2 else 0)

/-- Modelled from the spec: `total_penalty`, the sum of all per-claim
penalties (§4.3). -/
def totalPenalty (signals : List ClaimSignals) : ℚ :=
  (signals.map claimPenalty).sum

/-- Modelled from the spec: `total_possible_penalty` — each MAJOR claim
counts once with weight 1.0; MINOR claims do not contribute (§4.3). -/
def totalPossiblePenalty (signals : List ClaimSignals) : ℚ :=
  ((signals.filter (fun s => s.importance = Importance.major)).length : ℚ)

/-- Modelled from the spec: the §4.4 clamp to `[0,1]`. -/
def clampUnit (x : ℚ) : ℚ :=
  if x < 0 then 0 else if 1 < x then 1 else x

/-- Modelled from the spec: the §4.4 Score Normalizer (missing from
src/ — it exists only inside the `calculate_contradiction_score`
prompt).  `final_score = clamp(1 - total_penalty / total_possible, 0, 1)`
with the explicit default `1.0` when `total_possible_penalty = 0`. -/
def final_score (total_penalty total_possible : ℚ) : ℚ :=
  if total_possible = 0 then 1
  else clampUnit (1 - total_penalty / total_possible)

/-- Modelled from the spec: the final score of a scoring input. -/
def finalScoreOf (signals : List ClaimSignals) : ℚ :=
  final_score (totalPenalty signals) (totalPossiblePenalty signals)

/-- Modelled from the spec: the §4.5 Decision Maker threshold (missing
from src/ — it exists only inside the `final_decision_with_score`
prompt): `final_score < 0.4 → 0`, `final_score ≥ 0.4 → 1`. -/
def decisionOf (score : ℚ) : Nat :=
  if score < 2 / 5 then 0 else 1

/-! ## Dependency Graph & Orphan Propagation

The repository performs cross-claim dependency validation through the
language-model oracle (`cross_claim_validation`, src/reasoning.py lines
239–271); the graph computation itself is missing from src/.  It is
modelled from the specification (§4.2): edges `claim → prerequisite`,
a root set of claims with a FATAL-CONTRADICTION causal verdict, and a
claim is `CAUSALLY_ORPHANED` exactly when it reaches a root by following
one or more edges.  The computation is a bounded monotone fixed-point
iteration, hence cycle-safe. -/

/-- A dependency edge `claim → prerequisite` (the claim depends on the
prerequisite). -/
structure DepEdge where
  claim : String
  prereq : String
  deriving DecidableEq, Repr

/-- Modelled from the spec: `C` reaches, along one or more dependency
edges, some claim whose causal verdict is `FATAL_CONTRADICTION`. -/
inductive ReachesFatal (edges : List DepEdge) (fatal : List String) : String → Prop
  | base {c d : String} : DepEdge.mk c d ∈ edges → d ∈ fatal → ReachesFatal edges fatal c
  | step {c d : String} : DepEdge.mk c d ∈ edges → ReachesFatal edges fatal d →
      ReachesFatal edges fatal c

/-- One round of orphan propagation: add every claim with an edge into
the fatal set or into the already-orphaned set. -/
def orphanStep (edges : List DepEdge) (fatal : List String) (s : Finset String) :
    Finset String :=
  s ∪ ((edges.filter (fun e => e.prereq ∈ fatal ∨ e.prereq ∈ s)).map DepEdge.claim).toFinset

/-- The orphan set after `n` propagation rounds, starting empty. -/
def orphanIter (edges : List DepEdge) (fatal : List String) : Nat → Finset String
  | 0 => ∅
  | n + 1 => orphanStep edges fatal (orphanIter edges fatal n)

/-- Modelled from the spec: the set of causally orphaned claims — the
propagation is iterated `edges.length + 1` times, which the theorems
below show reaches the fixed point on every graph, cyclic ones
included. -/
def orphanSet (edges : List DepEdge) (fatal : List String) : Finset String :=
  orphanIter edges fatal (edges.length + 1)

/-- Modelled from the spec: the derived `OrphanStatus` of a claim
(§4.2), authoritative over any oracle-proposed label. -/
def orphanStatus (edges : List DepEdge) (fatal : List String) (c : String) : OrphanStatus :=
  if c ∈ orphanSet edges fatal then OrphanStatus.causallyOrphaned else OrphanStatus.valid

/-- An evidence entry `p` is correctly derived from the line `line`:
the line passed every guard of `retrieve_evidence` and the oracle call
on its stripped query succeeded with `p`'s passage list. -/
def goodEntry (oracle : String → Nat → Except PyErr (List String)) (top_k : Nat)
    (line : String) (p : String × List String) : Prop :=
  pyContains line ":" = true ∧
  (pyStrip line).toList.isEmpty = false ∧
  (pyStrip (splitOnceColon line).2).toList.isEmpty = false ∧
  (pyStrip (splitOnceColon line).2).length > 2 ∧
  p.1 = pyStrip (splitOnceColon line).1 ∧
  oracle (pyStrip (splitOnceColon line).2) top_k = Except.ok p.2

/-- A concrete collaborator record in which every external call
succeeds and returns an empty text, used to exercise the per-story
loop. -/
def trivOracles : Oracles Unit where
  load_text _ := Except.ok ""
  build_vector_index _ := Except.ok ()
  search_index _ _ _ := Except.ok []
  extract_claims _ := Except.ok ""
  classify_importance _ := Except.ok ""
  map_claim_dependencies _ := Except.ok ""
  generate_queries _ := Except.ok ""
  temporal_analysis _ _ := Except.ok ""
  causal_evaluation _ _ _ := Except.ok ""
  memory_state_propagation _ _ _ := Except.ok ""
  cross_claim_validation _ _ _ := Except.ok ""
  verify_counterfactual_expectations _ _ _ := Except.ok ""
  calculate_contradiction_score _ _ _ _ := Except.ok ""
  final_decision_with_score _ _ _ _ _ := Except.ok ""

/-! ## Theorems -/

/-- Membership in a Python-dict assignment: an entry of `dictInsert m k v`
is an entry of `m` or is the new binding `(k, v)`. -/
theorem mem_dictInsert {m : List (String × List String)} {k : String}
    {v : List String} {p : String × List String} (h : p ∈ dictInsert m k v) :
    p ∈ m ∨ p = (k, v) := by
  unfold dictInsert at h
  split at h
  · rcases List.mem_map.mp h with ⟨q, hq, hpq⟩
    by_cases hk : q.1 == k
    · right
      simpa [hk] using hpq.symm
    · left
      simp only [hk, if_neg] at hpq
      simp only [Bool.false_eq_true, if_false] at hpq
      exact hpq ▸ hq
  · rcases List.mem_append.mp h with hm | hnew
    · exact Or.inl hm
    · right
      simpa using hnew

/-- One line of the `retrieve_evidence` loop only ever adds a correctly
derived entry; otherwise it leaves the accumulator unchanged. -/
theorem mem_evidenceLine {oracle : String → Nat → Except PyErr (List String)}
    {top_k : Nat} {line : String} {acc : List (String × List String)}
    {p : String × List String} (h : p ∈ evidenceLine oracle top_k line acc) :
    p ∈ acc ∨ goodEntry oracle top_k line p := by
  simp only [evidenceLine] at h
  split at h
  case isFalse => exact Or.inl h
  case isTrue hcond =>
    split at h
    case isFalse => exact Or.inl h
    case isTrue hq =>
      obtain ⟨h1, h2⟩ := Bool.and_eq_true_iff.mp hcond
      obtain ⟨h3, h4⟩ := Bool.and_eq_true_iff.mp hq
      split at h
      case h_2 => exact Or.inl h
      case h_1 results hres =>
        rcases mem_dictInsert h with hm | hpeq
        · exact Or.inl hm
        · refine Or.inr ⟨h1, by simpa using h2, by simpa using h3,
            of_decide_eq_true h4, ?_, ?_⟩
          · simp [hpeq]
          · rw [hpeq]
            exact hres

/-- Every entry produced by the `retrieve_evidence` loop either was
already in the accumulator or is correctly derived from one of the
remaining lines. -/
theorem mem_evidenceLoop {oracle : String → Nat → Except PyErr (List String)}
    {top_k : Nat} {p : String × List String} :
    ∀ {lines : List String} {acc : List (String × List String)},
      p ∈ evidenceLoop oracle top_k lines acc →
      p ∈ acc ∨ ∃ line ∈ lines, goodEntry oracle top_k line p := by
  intro lines
  induction lines with
  | nil => intro acc h; exact Or.inl h
  | cons line rest ih =>
    intro acc h
    rcases @ih (evidenceLine oracle top_k line acc) h with hm | ⟨l, hl, hg⟩
    · rcases mem_evidenceLine hm with hm' | hg'
      · exact Or.inl hm'
      · exact Or.inr ⟨line, List.mem_cons_self line rest, hg'⟩
    · exact Or.inr ⟨l, List.mem_cons_of_mem line hl, hg⟩

/-- Claim C8: for every oracle query-text block, `retrieve_evidence`
never raises an exception to its caller — an evidence mapping is always
returned (`Except.ok`), and every entry of that mapping comes from a
line that contains a colon, whose stripped query is longer than two
characters, and whose oracle call succeeded; all other lines (no colon,
short query, or a raised exception) contribute nothing. -/
theorem retrieve_evidence_total_and_partial (query_text : String)
    (oracle : String → Nat → Except PyErr (List String)) (top_k : Nat) :
    ∃ m, retrieve_evidence query_text oracle top_k = Except.ok m ∧
      ∀ p ∈ m, ∃ line ∈ pySplitLines query_text, goodEntry oracle top_k line p := by
  refine ⟨evidenceLoop oracle top_k (pySplitLines query_text) [], rfl, ?_⟩
  intro p hp
  rcases mem_evidenceLoop hp with hm | hgood
  · simp at hm
  · exact hgood

/-- The `chunk_text` loop terminates with fuel exceeding the remaining
word count whenever the advance `chunk_size - overlap` is positive, and
each emitted chunk is the join of a slice of at most `chunk_size`
words. -/
theorem chunkLoop_total (words : List String) (chunk_size overlap : Nat)
    (hstep : 0 < chunk_size - overlap) :
    ∀ (fuel i : Nat), words.length - i < fuel →
      ∃ out, chunkLoop words chunk_size overlap fuel i = some out ∧
        ∀ c ∈ out, ∃ j, c = joinSpace ((words.drop j).take chunk_size) := by
  intro fuel
  induction fuel with
  | zero => intro i hi; omega
  | succ fuel ih =>
    intro i hi
    by_cases hlt : i < words.length
    · have hrec : words.length - (i + (chunk_size - overlap)) < fuel := by omega
      obtain ⟨out, hout, hgood⟩ := ih (i + (chunk_size - overlap)) hrec
      refine ⟨joinSpace ((words.drop i).take chunk_size) :: out, ?_, ?_⟩
      · simp only [chunkLoop, if_pos hlt, hout]
      · intro c hc
        rcases List.mem_cons.mp hc with rfl | hmem
        · exact ⟨i, rfl⟩
        · exact hgood c hmem
    · exact ⟨[], by simp only [chunkLoop, if_neg hlt], by intro c hc; simp at hc⟩

/-- Claim C10: for every input text, `chunk_text` with
`chunk_size > overlap` (in particular the defaults 1000 and 200)
terminates — the fuelled loop returns `some` — and every returned chunk
is the join of at most `chunk_size` consecutive whitespace-separated
words of the input. -/
theorem chunk_text_terminates_and_bounded (text : String) (chunk_size overlap : Nat)
    (h : overlap < chunk_size) :
    ∃ out, chunk_text text chunk_size overlap = some out ∧
      ∀ c ∈ out, ∃ j, c = joinSpace (((pySplitWS text).drop j).take chunk_size) ∧
        (((pySplitWS text).drop j).take chunk_size).length ≤ chunk_size := by
  obtain ⟨out, hout, hgood⟩ := chunkLoop_total (pySplitWS text) chunk_size overlap
    (Nat.sub_pos_of_lt h) ((pySplitWS text).length + 1) 0 (by omega)
  refine ⟨out, hout, ?_⟩
  intro c hc
  obtain ⟨j, hj⟩ := hgood c hc
  exact ⟨j, hj, by simp⟩

/-- Witness for C10 at the source's default parameters. -/
theorem chunk_text_terminates_and_bounded_witness :
    ∃ out, chunk_text "brave new world" 1000 200 = some out ∧
      ∀ c ∈ out, ∃ j, c = joinSpace (((pySplitWS "brave new world").drop j).take 1000) ∧
        (((pySplitWS "brave new world").drop j).take 1000).length ≤ 1000 :=
  chunk_text_terminates_and_bounded "brave new world" 1000 200 (by decide)

/-- Claim C5 (failing run): on a non-empty batch — here two stories with
the source's `try`-block body over concrete oracles — the `run_pipeline`
loop raises `NameError: name 'os' is not defined` at the `os.path.join`
call of its very first iteration (pipeline.py:80), because `pipeline.py`
never imports `os`.  The exception occurs before the per-story `try`, so
it is not caught at the per-story boundary: it aborts the whole loop, no
result row is produced, and the second story is never processed — the
claimed catch-and-continue behaviour never happens. -/
theorem runPipelineLoop_aborts_on_unbound_os :
    runPipelineLoop (fun _ => true) (processStory trivOracles) ["1", "2"] =
      Except.error (PyErr.nameError "os") := rfl

/-- Claim C9 (failing run): `parse_decision` does not return at all — on
the empty (entirely unparseable) decision output it raises
`NameError: name 're' is not defined`, because `pipeline.py` evaluates
`re.search` without ever importing `re`; the claimed default result
`(1, 0.8, "No rationale provided")` is never produced. -/
theorem parse_decision_raises_on_empty :
    parse_decision "" = Except.error (PyErr.nameError "re") := rfl

/-- Claim C7 (failing run): on a decision output with no parsable
confidence value, `parse_decision` raises `NameError` at the `re.search`
call instead of assigning the documented default confidence (0.8 for
prediction 1). -/
theorem parse_decision_raises_without_confidence :
    parse_decision "Prediction: 1\nRationale: consistent with the novel" =
      Except.error (PyErr.nameError "re") := rfl

/-- Claim C6 (failing run): on a decision output whose rationale spans
several lines and is wrapped in quotes, `parse_decision` raises
`NameError` at the `re.search` call before the rationale-extraction
lines are ever reached, so no truncated single-line rationale is
produced. -/
theorem parse_decision_raises_on_multiline_rationale :
    parse_decision "Prediction: 0\nConfidence Score: 0.3\nRationale: \"first line\nsecond line\"" =
      Except.error (PyErr.nameError "re") := rfl

/-- Claim C1: for every scoring input the normalised final score lies in
`[0, 1]` — the clamp holds even when the summed penalties exceed the
total possible penalty. -/
theorem finalScoreOf_mem_unit (signals : List ClaimSignals) :
    0 ≤ finalScoreOf signals ∧ finalScoreOf signals ≤ 1 := by
  unfold finalScoreOf final_score clampUnit
  split
  · norm_num
  · split
    case isTrue => norm_num
    case isFalse h1 =>
      split
      case isTrue => norm_num
      case isFalse h2 => exact ⟨not_lt.mp h1, not_lt.mp h2⟩

/-- Claim C2: the decision maker is a pure threshold function of the
final score: a score below 0.4 yields prediction 0 (inconsistent), a
score of at least 0.4 yields prediction 1 (consistent). -/
theorem decisionOf_threshold (signals : List ClaimSignals) :
    (finalScoreOf signals < 2 / 5 → decisionOf (finalScoreOf signals) = 0) ∧
      (2 / 5 ≤ finalScoreOf signals → decisionOf (finalScoreOf signals) = 1) := by
  constructor
  · intro h
    simp [decisionOf, h]
  · intro h
    simp [decisionOf, not_lt.mpr h]

/-- Witness for C2: one MAJOR claim with a fatal contradiction scores 0,
which is below the threshold, so the prediction is 0. -/
theorem decisionOf_threshold_witness :
    decisionOf (finalScoreOf [⟨Importance.major, CausalVerdict.fatalContradiction, none,
      OrphanStatus.valid, none⟩]) = 0 :=
  (decisionOf_threshold [⟨Importance.major, CausalVerdict.fatalContradiction, none,
      OrphanStatus.valid, none⟩]).1
    (by simp [finalScoreOf, final_score, totalPenalty, totalPossiblePenalty, claimPenalty,
      causalPenalty, clampUnit, List.filter]
        norm_num)

/-- Claim C3: when no claim is MAJOR the total possible penalty is zero,
the scorer returns the explicit default `final_score = 1.0` (no division
is attempted), and the decision is prediction 1. -/
theorem finalScoreOf_no_major (signals : List ClaimSignals)
    (h : totalPossiblePenalty signals = 0) :
    finalScoreOf signals = 1 ∧ decisionOf (finalScoreOf signals) = 1 := by
  have hs : finalScoreOf signals = 1 := by
    unfold finalScoreOf final_score
    simp [h]
  refine ⟨hs, ?_⟩
  rw [hs]
  norm_num [decisionOf]

/-- Witness for C3: a single MINOR claim, even a contradicted one,
leaves the total possible penalty at zero. -/
theorem finalScoreOf_no_major_witness :
    finalScoreOf [⟨Importance.minor, CausalVerdict.fatalContradiction, none,
        OrphanStatus.valid, none⟩] = 1 ∧
      decisionOf (finalScoreOf [⟨Importance.minor, CausalVerdict.fatalContradiction, none,
        OrphanStatus.valid, none⟩]) = 1 :=
  finalScoreOf_no_major [⟨Importance.minor, CausalVerdict.fatalContradiction, none,
      OrphanStatus.valid, none⟩]
    (by simp [totalPossiblePenalty, List.filter])

/-- Each propagation round only grows the orphan set. -/
theorem orphanIter_mono_succ (edges : List DepEdge) (fatal : List String) (n : Nat) :
    orphanIter edges fatal n ⊆ orphanIter edges fatal (n + 1) := by
  simp only [orphanIter, orphanStep]
  exact Finset.subset_union_left

/-- Once two consecutive propagation rounds agree, every later round
returns the same set — the iteration has reached its fixed point. -/
theorem orphanIter_stab (edges : List DepEdge) (fatal : List String) (k : Nat)
    (h : orphanIter edges fatal (k + 1) = orphanIter edges fatal k) :
    ∀ j, orphanIter edges fatal (k + j) = orphanIter edges fatal k := by
  intro j
  induction j with
  | zero => rfl
  | succ j ih =>
    have hstep : orphanIter edges fatal (k + (j + 1)) =
        orphanStep edges fatal (orphanIter edges fatal (k + j)) := rfl
    rw [hstep, ih]
    exact h

/-- Every orphan set is a set of edge sources. -/
theorem orphanIter_subset_claims (edges : List DepEdge) (fatal : List String) (n : Nat) :
    orphanIter edges fatal n ⊆ (edges.map DepEdge.claim).toFinset := by
  induction n with
  | zero => simp [orphanIter]
  | succ n ih =>
    intro c hc
    simp only [orphanIter, orphanStep] at hc
    rcases Finset.mem_union.mp hc with h | h
    · exact ih h
    · rw [List.mem_toFinset] at h ⊢
      rcases List.mem_map.mp h with ⟨e, he, rfl⟩
      exact List.mem_map.mpr ⟨e, List.mem_of_mem_filter he, rfl⟩

/-- While no two consecutive rounds agree, the orphan set grows by at
least one claim per round. -/
theorem orphanIter_card_growth (edges : List DepEdge) (fatal : List String) :
    ∀ n, (∀ k, k < n → orphanIter edges fatal (k + 1) ≠ orphanIter edges fatal k) →
      n ≤ (orphanIter edges fatal n).card := by
  intro n
  induction n with
  | zero => intro _; exact Nat.zero_le _
  | succ n ih =>
    intro h
    have h1 : n ≤ (orphanIter edges fatal n).card :=
      ih (fun k hk => h k (Nat.lt_succ_of_lt hk))
    have hne : orphanIter edges fatal (n + 1) ≠ orphanIter edges fatal n :=
      h n (Nat.lt_succ_self n)
    have hss : orphanIter edges fatal n ⊂ orphanIter edges fatal (n + 1) :=
      Finset.ssubset_iff_subset_ne.mpr
        ⟨orphanIter_mono_succ edges fatal n, fun he => hne he.symm⟩
    have := Finset.card_lt_card hss
    omega

/-- On every graph the iteration stabilises within `edges.length`
rounds: there are at most `edges.length` distinct edge sources, so the
set cannot keep growing.  This bounds the traversal on cyclic graphs as
well. -/
theorem orphanIter_reaches_fixpoint (edges : List DepEdge) (fatal : List String) :
    ∃ k, k ≤ edges.length ∧
      orphanIter edges fatal (k + 1) = orphanIter edges fatal k := by
  by_contra hcon
  push_neg at hcon
  have hall : ∀ k, k < edges.length + 1 →
      orphanIter edges fatal (k + 1) ≠ orphanIter edges fatal k :=
    fun k hk => hcon k (Nat.lt_succ_iff.mp hk)
  have hcard := orphanIter_card_growth edges fatal (edges.length + 1) hall
  have hle : (orphanIter edges fatal (edges.length + 1)).card ≤
      (edges.map DepEdge.claim).toFinset.card :=
    Finset.card_le_card (orphanIter_subset_claims edges fatal _)
  have hlen : (edges.map DepEdge.claim).toFinset.card ≤ edges.length := by
    calc (edges.map DepEdge.claim).toFinset.card
        ≤ (edges.map DepEdge.claim).length := (edges.map DepEdge.claim).toFinset_card_le
      _ = edges.length := by simp
  omega

/-- `orphanSet` is a fixed point of one propagation round. -/
theorem orphanStep_orphanSet (edges : List DepEdge) (fatal : List String) :
    orphanStep edges fatal (orphanSet edges fatal) = orphanSet edges fatal := by
  obtain ⟨k, hk, hfix⟩ := orphanIter_reaches_fixpoint edges fatal
  have hstab := orphanIter_stab edges fatal k hfix
  have h1 : orphanSet edges fatal = orphanIter edges fatal k := by
    have h2 := hstab (edges.length + 1 - k)
    unfold orphanSet
    rwa [Nat.add_sub_cancel' (le_trans hk (Nat.le_succ _))] at h2
  rw [h1]
  exact hfix

/-- Soundness: a claim in any orphan-iteration round really reaches a
fatally contradicted claim along dependency edges. -/
theorem mem_orphanIter_reaches (edges : List DepEdge) (fatal : List String) :
    ∀ n c, c ∈ orphanIter edges fatal n → ReachesFatal edges fatal c := by
  intro n
  induction n with
  | zero => intro c hc; simp [orphanIter] at hc
  | succ n ih =>
    intro c hc
    simp only [orphanIter, orphanStep] at hc
    rcases Finset.mem_union.mp hc with h | h
    · exact ih c h
    · rw [List.mem_toFinset] at h
      rcases List.mem_map.mp h with ⟨e, he, rfl⟩
      have hmem := List.mem_filter.mp he
      rcases of_decide_eq_true hmem.2 with hf | ho
      · exact ReachesFatal.base hmem.1 hf
      · exact ReachesFatal.step hmem.1 (ih _ ho)

/-- Completeness: a claim that reaches a fatally contradicted claim is
in the computed orphan set. -/
theorem reaches_mem_orphanSet (edges : List DepEdge) (fatal : List String) :
    ∀ c, ReachesFatal edges fatal c → c ∈ orphanSet edges fatal := by
  intro c h
  induction h with
  | base hmem hf =>
    rw [← orphanStep_orphanSet edges fatal]
    apply Finset.mem_union_right
    rw [List.mem_toFinset]
    exact List.mem_map.mpr ⟨_, List.mem_filter.mpr ⟨hmem, decide_eq_true (Or.inl hf)⟩, rfl⟩
  | step hmem _ ih =>
    rw [← orphanStep_orphanSet edges fatal]
    apply Finset.mem_union_right
    rw [List.mem_toFinset]
    exact List.mem_map.mpr ⟨_, List.mem_filter.mpr ⟨hmem, decide_eq_true (Or.inr ih)⟩, rfl⟩

/-- Claim C4: the derived `OrphanStatus` of a claim is
`CAUSALLY_ORPHANED` exactly when the claim reaches, directly or
transitively along dependency edges, some claim whose causal verdict is
`FATAL_CONTRADICTION`; a claim with no outgoing dependency edges is
never `CAUSALLY_ORPHANED`; and orphan status propagates through chains
`a → b → r` with `r` fatally contradicted. -/
theorem orphanStatus_characterisation (edges : List DepEdge) (fatal : List String)
    (c a b r : String) :
    (orphanStatus edges fatal c = OrphanStatus.causallyOrphaned ↔
      ReachesFatal edges fatal c) ∧
    ((∀ d, DepEdge.mk c d ∉ edges) → orphanStatus edges fatal c = OrphanStatus.valid) ∧
    (DepEdge.mk a b ∈ edges → DepEdge.mk b r ∈ edges → r ∈ fatal →
      orphanStatus edges fatal a = OrphanStatus.causallyOrphaned) := by
  have hiff : ∀ x, orphanStatus edges fatal x = OrphanStatus.causallyOrphaned ↔
      ReachesFatal edges fatal x := by
    intro x
    constructor
    · intro h
      unfold orphanStatus at h
      split at h
      case isTrue hx => exact mem_orphanIter_reaches edges fatal _ x hx
      case isFalse hx => simp at h
    · intro h
      unfold orphanStatus
      rw [if_pos (reaches_mem_orphanSet edges fatal x h)]
  refine ⟨hiff c, ?_, ?_⟩
  · intro hnone
    cases hst : orphanStatus edges fatal c with
    | valid => rfl
    | causallyOrphaned =>
      exfalso
      have hr := (hiff c).mp hst
      cases hr with
      | base hmem _ => exact hnone _ hmem
      | step hmem _ => exact hnone _ hmem
  · intro hab hbr hrf
    exact (hiff a).mpr (ReachesFatal.step hab (ReachesFatal.base hbr hrf))

/-- Witness for C4: in the chain `A → B → C` with `C` fatally
contradicted, `A` is causally orphaned although it never references `C`
directly. -/
theorem orphanStatus_characterisation_witness :
    orphanStatus [⟨"A", "B"⟩, ⟨"B", "C"⟩] ["C"] "A" = OrphanStatus.causallyOrphaned :=
  (orphanStatus_characterisation [⟨"A", "B"⟩, ⟨"B", "C"⟩] ["C"] "A" "A" "B" "C").2.2
    (by decide) (by decide) (by decide)
